import Mathlib

/-!
Shallow embedding of the Culk-Analytics ingestion scripts.

Python dicts are modelled as association lists with unique keys
(`Obj`); JSON values as the inductive `JValue`.  `dict.pop(k, None)`
removes every binding of `k` (dicts never hold duplicates, so this
agrees with Python), `dict[k] = v` replaces the value in place when the
key exists (preserving position, as CPython does) and appends
otherwise.
-/

namespace Culk

inductive JValue where
  | null : JValue
  | bool : Bool → JValue
  | num : Int → JValue
  | str : String → JValue
  | arr : List JValue → JValue
  | obj : List (String × JValue) → JValue
deriving Repr, BEq

abbrev Obj := List (String × JValue)

/-- `dict.pop(k, None)`: drop the binding of `k`. -/
def objPop (o : Obj) (k : String) : Obj :=
  o.filter (fun p => p.1 != k)

/-- `d[k] = v`: replace in place when the key is present, append otherwise. -/
def objSet (o : Obj) (k : String) (v : JValue) : Obj :=
  if (List.lookup k o).isSome then
    o.map (fun p => if p.1 = k then (k, v) else p)
  else
    o ++ [(k, v)]

/-- `d.get(k)`: `None` (JSON null) when the key is absent. -/
def jget (o : Obj) (k : String) : JValue :=
  (List.lookup k o).getD JValue.null

/-- `d.get(k, default)`. -/
def jgetD (o : Obj) (k : String) (d : JValue) : JValue :=
  (List.lookup k o).getD d

/-- The list stored under `k`; `d.get(k, [])`.  (The Python raises a
`TypeError` when the stored value is not a list; the claims only
exercise list-valued fields, where the two agree.) -/
def jarr (o : Obj) (k : String) : List JValue :=
  match List.lookup k o with
  | some (JValue.arr l) => l
  | _ => []

/-- View a JSON value as an object (the Python code only ever does this
on dict values; other shapes would raise there). -/
def asObj : JValue → Obj
  | JValue.obj o => o
  | _ => []

/-- Build a dict from a literal `{k1: v1, ..., **rest}`: later bindings
overwrite earlier ones in place, as in CPython. -/
def buildObj (kvs : List (String × JValue)) : Obj :=
  kvs.foldl (fun o kv => objSet o kv.1 kv.2) []

/-- `f"{v}"`: Python string rendering of a scalar.  (Container values
never appear as primary keys in the claims.) -/
def pyStr : JValue → String
  | JValue.null => "None"
  | JValue.bool true => "True"
  | JValue.bool false => "False"
  | JValue.num n => toString n
  | JValue.str s => s
  | JValue.arr _ => "<list>"
  | JValue.obj _ => "<dict>"

/-- Python truthiness of a JSON value. -/
def truthy : JValue → Bool
  | JValue.null => false
  | JValue.bool b => b
  | JValue.num n => n != 0
  | JValue.str s => s != ""
  | JValue.arr l => !l.isEmpty
  | JValue.obj o => !o.isEmpty

end Culk

namespace LoopReturns

open Culk

/-- `sanitize_return` from `src/ingestion/loop_returns.py`: pops
`customer` and `status_page_url` at the top level, and `address` and
`qr_code_url` inside `return_method` when that value is a dict. -/
def sanitize_return (item : Obj) : Obj :=
  let item1 := objPop (objPop item "customer") "status_page_url"
  match List.lookup "return_method" item1 with
  | some (JValue.obj m) =>
      objSet item1 "return_method"
        (JValue.obj (objPop (objPop m "address") "qr_code_url"))
  | _ => item1

/-- The loop body of `chunk_date_range`, with dates as day numbers
(`datetime.strptime` of a `YYYY-MM-DD` date plus `timedelta(days=n)` is
exact day arithmetic).  The Python loop never terminates when
`chunk_days = 0`; the guard totalises that case to `[]`, and every
claim assumes `chunk_days > 0`. -/
def chunkFrom (endD chunkDays : Nat) (current : Nat) : List (Nat × Nat) :=
  if h : current < endD ∧ 0 < chunkDays then
    (current, min (current + chunkDays) endD) ::
      chunkFrom endD chunkDays (min (current + chunkDays) endD)
  else
    []
termination_by endD - current
decreasing_by
  have h1 : current < min (current + chunkDays) endD := by
    exact lt_min (by omega) h.1
  omega

/-- `chunk_date_range` from `src/ingestion/loop_returns.py`. -/
def chunk_date_range (startD endD : Nat) (chunkDays : Nat) : List (Nat × Nat) :=
  chunkFrom endD chunkDays startD

end LoopReturns

namespace ShipHero

open Culk

/-- One entry of the GraphQL `errors` array: the optional numeric
`code` and the parsed `time_remaining` seconds
(`int(error.get("time_remaining", "60 seconds").split()[0])`). -/
structure GqlError where
  code : Option Int
  timeRemaining : Nat := 60
deriving Repr, DecidableEq

/-- The parsed JSON body of a response: the `errors` array when the
key is present, and `body.get("data", dict())` as an abstract payload. -/
structure GqlBody (α : Type) where
  errors : Option (List GqlError)
  payload : α
deriving Repr

/-- One scripted HTTP response: status code, parsed
`int(headers.get("Retry-After", 60))`, and body. -/
structure HttpResponse (α : Type) where
  status : Nat
  retryAfter : Nat := 60
  body : GqlBody α
deriving Repr

/-- What the transport does on the i-th outbound call: deliver a
response, or raise `aiohttp.ClientError`. -/
inductive ScriptEntry (α : Type) where
  | resp : HttpResponse α → ScriptEntry α
  | netError : ScriptEntry α
deriving Repr

/-- The ways `fetch_shiphero_graphql` terminates abnormally.  The code
has a single exception class `ShipHeroAPIError`; the constructors
record which `raise` site produced it.  `unboundLocal` is the
`UnboundLocalError` hit at `data.get("data", dict())` when the retry
loop is exhausted by 429/throttle responses without ever parsing a
body. -/
inductive FetchError where
  | auth : FetchError
  | httpFatal : Nat → FetchError
  | graphqlFatal : FetchError
  | networkFatal : FetchError
  | failedAfterRetries : FetchError
  | unboundLocal : FetchError
deriving Repr, DecidableEq

/-- Result of a fetch: outcome, number of HTTP calls issued, and the
sequence of sleeps performed (in seconds). -/
structure FetchResult (α : Type) where
  outcome : Except FetchError α
  calls : Nat
  sleeps : List Rat
deriving Repr

/-- The code after the `for` loop of `fetch_shiphero_graphql` (lines
322-335): re-raise a recorded network exception, otherwise read the
variable `data` (unbound when no body was ever parsed). -/
def afterLoop (α : Type) (lastData : Option (GqlBody α)) (lastExc : Bool)
    (calls : Nat) (sleeps : List Rat) : FetchResult α :=
  if lastExc then ⟨Except.error FetchError.failedAfterRetries, calls, sleeps⟩
  else
    match lastData with
    | none => ⟨Except.error FetchError.unboundLocal, calls, sleeps⟩
    | some b => ⟨Except.ok b.payload, calls, sleeps⟩

/-- The body of `for attempt in range(max_retries)` in
`fetch_shiphero_graphql` (`src/ingestion/shiphero.py` lines 213-321).
`attempts` is the list of remaining loop indices, `calls` counts the
HTTP calls already made (each iteration makes exactly one), `lastData`
is the Python variable `data` (parsed JSON of the most recent body),
`lastExc` records whether `last_exception` is set. -/
def fetchGo (α : Type) (script : Nat → ScriptEntry α) (maxRetries : Nat)
    (baseDelay : Rat) :
    List Nat → Nat → Option (GqlBody α) → Bool → List Rat → FetchResult α
  | [], calls, lastData, lastExc, sleeps =>
      afterLoop α lastData lastExc calls sleeps
  | attempt :: rest, calls, lastData, lastExc, sleeps =>
      match script calls with
      | ScriptEntry.netError =>
          if attempt < maxRetries - 1 then
            fetchGo α script maxRetries baseDelay rest (calls + 1) lastData true
              (sleeps ++ [baseDelay * 2 ^ attempt])
          else
            ⟨Except.error FetchError.networkFatal, calls + 1, sleeps⟩
      | ScriptEntry.resp r =>
          if r.status = 429 then
            fetchGo α script maxRetries baseDelay rest (calls + 1) lastData lastExc
              (sleeps ++ [(r.retryAfter : Rat)])
          else if r.status = 401 then
            ⟨Except.error FetchError.auth, calls + 1, sleeps⟩
          else if 400 ≤ r.status then
            if 500 ≤ r.status ∧ attempt < maxRetries - 1 then
              fetchGo α script maxRetries baseDelay rest (calls + 1) lastData lastExc
                (sleeps ++ [baseDelay * 2 ^ attempt])
            else
              ⟨Except.error (FetchError.httpFatal r.status), calls + 1, sleeps⟩
          else
            match r.body.errors with
            | some errs =>
                match errs.find? (fun e => e.code == some 30) with
                | some thr =>
                    fetchGo α script maxRetries baseDelay rest (calls + 1)
                      (some r.body) lastExc (sleeps ++ [(thr.timeRemaining : Rat)])
                | none =>
                    ⟨Except.error FetchError.graphqlFatal, calls + 1, sleeps⟩
            | none =>
                afterLoop α (some r.body) lastExc (calls + 1) sleeps

/-- `fetch_shiphero_graphql`, driven by a scripted transport. -/
def fetch_shiphero_graphql (α : Type) (script : Nat → ScriptEntry α)
    (maxRetries : Nat := 3) (baseDelay : Rat := 1) : FetchResult α :=
  fetchGo α script maxRetries baseDelay (List.range maxRetries) 0 none false []

/-- A scripted response with the given status and no GraphQL errors. -/
def plainResp (α : Type) (status : Nat) (payload : α) : ScriptEntry α :=
  ScriptEntry.resp ⟨status, 60, ⟨none, payload⟩⟩

/-- One page as seen by the `products` pagination loop
(`src/ingestion/shiphero.py` lines 454-495): the flattened records of
the page and `data["pageInfo"]`. -/
structure Page where
  records : List Obj
  hasNextPage : Bool
  endCursor : Option String
deriving Repr

/-- The GraphQL `variables` dict built for one call of the `products`
loop.  `updatedFrom` is `Option` so that the spec notion of omitting
the filter is expressible; the code always passes `some`. -/
structure ProductsVars where
  cursor : Option String
  updatedFrom : Option String
deriving Repr, DecidableEq

/-- The `while has_next_page` loop of `products`, recorded as the list
of `variables` dicts passed to `fetch_shiphero_graphql`, one per call.
The scripted `pages` list supplies the successive successful responses;
the loop body is

    variables = dict(cursor = cursor, updatedFrom = updated_from)
    ... fetch ...
    has_next_page = page_info["hasNextPage"]; cursor = page_info.get("endCursor")
-/
def productsCalls (updatedFrom : String) :
    List Page → Option String → List ProductsVars
  | [], _ => []
  | p :: rest, cursor =>
      ⟨cursor, some updatedFrom⟩ ::
        (if p.hasNextPage then productsCalls updatedFrom rest p.endCursor else [])

/-- A run of the `products` paginator: starts with `cursor = None`. -/
def productsRun (updatedFrom : String) (pages : List Page) : List ProductsVars :=
  productsCalls updatedFrom pages none

end ShipHero

namespace Shopify

open Culk
open ShipHero (Page)

/-- The GraphQL `variables` dict built for one call of the Shopify
`orders` loop (`src/ingestion/shopify.py` lines 478-521): the cursor
and the search `query` string.  `query` is `Option` so that omission is
expressible; the code always passes `some`. -/
structure OrdersVars where
  cursor : Option String
  query : Option String
deriving Repr, DecidableEq

/-- The `while has_next_page` loop of Shopify `orders`, as the list of
`variables` dicts passed to `fetch_shopify_graphql`.  Every call sets

    query = "updated_at:>" ++ quoted updated_at_min
-/
def ordersCalls (updatedAtMin : String) :
    List Page → Option String → List OrdersVars
  | [], _ => []
  | p :: rest, cursor =>
      ⟨cursor, some ("updated_at:>" ++ "\x27" ++ updatedAtMin ++ "\x27")⟩ ::
        (if p.hasNextPage then ordersCalls updatedAtMin rest p.endCursor else [])

/-- A run of the Shopify `orders` paginator: starts with `cursor = None`. -/
def ordersRun (updatedAtMin : String) (pages : List Page) : List OrdersVars :=
  ordersCalls updatedAtMin pages none

end Shopify

namespace ShipHero

open Culk

/-- `flatten_orders` from `src/ingestion/shiphero.py` lines 372-435.
Key access `d[k]` is modelled like `d.get(k)`; the two differ only on
malformed input, where the Python raises `KeyError`.  Both `line_items`
and `shipments` are kept as nested JSON inside the parent row, exactly
as the source comments say. -/
def flatten_orders (orders_data : Obj) : List Obj :=
  (jarr (asObj (jget orders_data "data")) "edges").map (fun edge =>
    let order := asObj (jget (asObj edge) "node")
    let line_items : List JValue :=
      if truthy (jget order "line_items") then
        (jarr (asObj (jget order "line_items")) "edges").map (fun li =>
          let n := asObj (jget (asObj li) "node")
          JValue.obj [("sku", jget n "sku"),
            ("product_name", jget n "product_name"),
            ("quantity", jget n "quantity"),
            ("quantity_allocated", jget n "quantity_allocated"),
            ("quantity_pending_fulfillment", jget n "quantity_pending_fulfillment"),
            ("backorder_quantity", jget n "backorder_quantity"),
            ("quantity_shipped", jget n "quantity_shipped")])
      else []
    let shipments : List JValue :=
      (jarr order "shipments").map (fun sh =>
        let s := asObj sh
        JValue.obj [("id", jget s "id"),
          ("total_packages", jget s "total_packages"),
          ("shipping_labels", JValue.arr ((jarr s "shipping_labels").map (fun lb =>
            let l := asObj lb
            JValue.obj [("created_date", jget l "created_date"),
              ("cost", jget l "cost"),
              ("refunded", jget l "refunded"),
              ("status", jget l "status"),
              ("tracking_number", jget l "tracking_number"),
              ("tracking_status", jget l "tracking_status"),
              ("carrier", jget l "carrier"),
              ("shipping_name", jget l "shipping_name"),
              ("shipping_method", jget l "shipping_method")])))])
    [("id", jget order "id"),
     ("order_number", jget order "order_number"),
     ("order_date", jget order "order_date"),
     ("fulfillment_status", jget order "fulfillment_status"),
     ("line_items", JValue.arr line_items),
     ("shipments", JValue.arr shipments)])

end ShipHero

namespace Faire

open Culk

/-- The keys excluded from the `**` merge in `flatten_order_items`
(note: `order_id` is not among them). -/
def itemExcluded : List String :=
  ["id", "product_id", "product_option_id", "quantity", "sku",
   "created_at", "updated_at"]

/-- `flatten_order_items` from `src/ingestion/faire.py` lines 101-132:
one record per element of `order_data.get("items", [])`, built as the
dict literal of eight named fields followed by `**` of all other item
fields. -/
def flatten_order_items (order_data : Obj) : List Obj :=
  let order_id := jget order_data "id"
  (jarr order_data "items").map (fun itemJ =>
    let item := asObj itemJ
    buildObj
      ([("id", jget item "id"),
        ("order_id", order_id),
        ("product_id", jget item "product_id"),
        ("product_option_id", jget item "product_option_id"),
        ("quantity", jget item "quantity"),
        ("sku", jget item "sku"),
        ("created_at", jget item "created_at"),
        ("updated_at", jget item "updated_at")]
        ++ item.filter (fun p => !(itemExcluded.contains p.1))))

/-- `faire_orders_transformer` from `src/ingestion/faire.py` lines
428-446: copy the order and pop `items` and `shipments`. -/
def faire_orders_transformer (order : Obj) : Obj :=
  objPop (objPop order "items") "shipments"

/-- `flatten_product_variant_option_sets` from `src/ingestion/faire.py`
lines 205-227: synthetic id `f"{product_id}_option_{idx}"`. -/
def flatten_product_variant_option_sets (product_data : Obj) : List Obj :=
  let product_id := jget product_data "id"
  ((jarr product_data "variant_option_sets").enum).map (fun p =>
    [("id", JValue.str (pyStr product_id ++ "_option_" ++ toString p.1)),
     ("product_id", product_id),
     ("name", jget (asObj p.2) "name"),
     ("values", jgetD (asObj p.2) "values" (JValue.arr []))])

/-- `flatten_product_attributes` from `src/ingestion/faire.py` lines
230-252: synthetic id `f"{product_id}_attr_{idx}"`. -/
def flatten_product_attributes (product_data : Obj) : List Obj :=
  let product_id := jget product_data "id"
  ((jarr product_data "product_attributes").enum).map (fun p =>
    [("id", JValue.str (pyStr product_id ++ "_attr_" ++ toString p.1)),
     ("product_id", product_id),
     ("name", jget (asObj p.2) "name"),
     ("value", jget (asObj p.2) "value")])

/-- `faire_products_transformer` from `src/ingestion/faire.py` lines
504-535: copy the product, pop the nested collections, then embed the
`taxonomy_type` fields when that value is truthy. -/
def faire_products_transformer (product : Obj) : Obj :=
  let p1 :=
    objPop (objPop (objPop (objPop product "images") "variants")
      "variant_option_sets") "product_attributes"
  let tax := List.lookup "taxonomy_type" p1
  let p2 := objPop p1 "taxonomy_type"
  match tax with
  | some v =>
      if truthy v then
        objSet (objSet p2 "taxonomy_type_id" (jget (asObj v) "id"))
          "taxonomy_type_name" (jget (asObj v) "name")
      else p2
  | none => p2

end Faire

/-! ## Lemmas about the dict model -/

namespace Culk

theorem beqF {k a : String} (h : ¬ a = k) : (k == a) = false := by
  simp only [beq_eq_false_iff_ne]
  exact fun he => h he.symm

theorem lookup_objPop_self (o : Obj) (k : String) :
    List.lookup k (objPop o k) = none := by
  induction o with
  | nil => rfl
  | cons p rest ih =>
    obtain ⟨a, b⟩ := p
    by_cases hp : a = k
    · simpa [objPop, List.filter_cons, hp] using ih
    · simpa [objPop, List.filter_cons, hp, List.lookup_cons, beqF hp] using ih

theorem lookup_objPop_ne (o : Obj) (k k0 : String) (h : k ≠ k0) :
    List.lookup k (objPop o k0) = List.lookup k o := by
  induction o with
  | nil => rfl
  | cons p rest ih =>
    obtain ⟨a, b⟩ := p
    by_cases hp : a = k0
    · simpa [objPop, List.filter_cons, hp, List.lookup_cons,
        beqF (fun he => h he.symm)] using ih
    · by_cases hk : a = k
      · simp [objPop, List.filter_cons, hp, List.lookup_cons, hk, h]
      · simpa [objPop, List.filter_cons, hp, List.lookup_cons, beqF hk] using ih

theorem mem_objPop (o : Obj) (k : String) (p : String × JValue)
    (h : p ∈ objPop o k) : p.1 ≠ k ∧ p ∈ o := by
  have h2 := List.mem_filter.mp h
  refine ⟨?_, h2.1⟩
  simpa using h2.2

theorem objPop_eq_self (o : Obj) (k : String) (h : ∀ p ∈ o, p.1 ≠ k) :
    objPop o k = o := by
  refine List.filter_eq_self.mpr ?_
  intro p hp
  simpa using h p hp

theorem objPop_idem (o : Obj) (k : String) :
    objPop (objPop o k) k = objPop o k :=
  objPop_eq_self _ _ (fun p hp => (mem_objPop _ _ _ hp).1)

theorem objPop_comm (o : Obj) (k1 k2 : String) :
    objPop (objPop o k1) k2 = objPop (objPop o k2) k1 := by
  simp only [objPop]
  rw [List.filter_filter, List.filter_filter]
  exact List.filter_congr (fun p _ => Bool.and_comm _ _)

theorem lookup_none_key (o : Obj) (k : String)
    (h : List.lookup k o = none) : ∀ p ∈ o, p.1 ≠ k := by
  induction o with
  | nil => intro p hp; cases hp
  | cons q rest ih =>
    obtain ⟨a, b⟩ := q
    intro p hp
    by_cases hq : a = k
    · exfalso
      simp [List.lookup_cons, hq] at h
    · rcases List.mem_cons.mp hp with hp | hp
      · rw [hp]
        simpa using hq
      · have h2 : List.lookup k rest = none := by
          simpa [List.lookup_cons, beqF hq] using h
        exact ih h2 p hp

theorem lookup_map_replace (o : Obj) (k k1 : String) (v : JValue) :
    List.lookup k1 (o.map (fun p => if p.1 = k then (k, v) else p)) =
      if k1 = k then (List.lookup k o).map (fun _ => v) else List.lookup k1 o := by
  induction o with
  | nil => by_cases hk : k1 = k <;> simp [hk]
  | cons p rest ih =>
    obtain ⟨a, b⟩ := p
    by_cases hp : a = k
    · by_cases hk : k1 = k
      · subst hk
        simp [List.lookup_cons, hp, ih]
      · simp [List.lookup_cons, hp, hk, beqF (fun he => hk he.symm), ih]
    · by_cases hk : k1 = k
      · subst hk
        simp [List.lookup_cons, hp, beqF hp, ih]
      · by_cases hpk1 : a = k1
        · simp [List.lookup_cons, hp, hk, hpk1]
        · simp [List.lookup_cons, hp, hk, beqF hpk1, ih]

theorem lookup_append_or (k : String) (l1 l2 : Obj) :
    List.lookup k (l1 ++ l2) = (List.lookup k l1).or (List.lookup k l2) := by
  induction l1 with
  | nil => simp
  | cons p rest ih =>
    obtain ⟨a, b⟩ := p
    by_cases hp : a = k
    · simp [List.lookup_cons, hp]
    · simp [List.lookup_cons, beqF hp, ih]

theorem lookup_objSet_self (o : Obj) (k : String) (v : JValue) :
    List.lookup k (objSet o k v) = some v := by
  unfold objSet
  by_cases h : (List.lookup k o).isSome
  · rcases Option.isSome_iff_exists.mp h with ⟨w, hw⟩
    simp [h, lookup_map_replace, hw]
  · have hn : List.lookup k o = none := Option.not_isSome_iff_eq_none.mp h
    simp [h, lookup_append_or, hn, List.lookup_cons]

theorem lookup_objSet_ne (o : Obj) (k k0 : String) (v : JValue) (h : k ≠ k0) :
    List.lookup k (objSet o k0 v) = List.lookup k o := by
  unfold objSet
  by_cases hs : (List.lookup k0 o).isSome
  · simp [hs, lookup_map_replace, h]
  · simp [hs, lookup_append_or, List.lookup_cons, beqF (fun he => h he.symm)]

theorem mem_objSet (o : Obj) (k : String) (v : JValue) (p : String × JValue)
    (h : p ∈ objSet o k v) : p.1 = k ∨ p ∈ o := by
  by_cases hs : (List.lookup k o).isSome
  · rw [objSet, if_pos hs] at h
    rcases List.mem_map.mp h with ⟨q, hq, hfq⟩
    by_cases hqk : q.1 = k
    · left; rw [← hfq]; simp [hqk]
    · right; rw [← hfq]; simpa [hqk] using hq
  · rw [objSet, if_neg hs] at h
    rcases List.mem_append.mp h with h | h
    · right; exact h
    · left
      have hpv : p = (k, v) := by simpa using h
      rw [hpv]

theorem objSet_idem (o : Obj) (k : String) (v : JValue) :
    objSet (objSet o k v) k v = objSet o k v := by
  have hsome : (List.lookup k (objSet o k v)).isSome := by
    rw [lookup_objSet_self]; rfl
  conv_lhs => rw [objSet]
  rw [if_pos hsome]
  by_cases hs : (List.lookup k o).isSome
  · conv_lhs => rw [objSet, if_pos hs]
    rw [List.map_map]
    have hff : ((fun p : String × JValue => if p.1 = k then (k, v) else p) ∘
        (fun p : String × JValue => if p.1 = k then (k, v) else p)) =
        (fun p : String × JValue => if p.1 = k then (k, v) else p) := by
      funext p
      by_cases hp : p.1 = k <;> simp [hp]
    rw [hff]
    conv_rhs => rw [objSet, if_pos hs]
  · have hn : List.lookup k o = none := Option.not_isSome_iff_eq_none.mp hs
    conv_lhs => rw [objSet, if_neg hs]
    rw [List.map_append]
    have h1 : List.map (fun p : String × JValue => if p.1 = k then (k, v) else p) o
        = List.map id o := by
      apply List.map_congr_left
      intro p hp
      simp [lookup_none_key o k hn p hp]
    have h2 : List.map (fun p : String × JValue => if p.1 = k then (k, v) else p) [(k, v)]
        = [(k, v)] := by simp
    rw [h1, List.map_id, h2]
    conv_rhs => rw [objSet, if_neg hs]

theorem lookup_foldl_objSet (kvs : List (String × JValue)) (init : Obj) (k : String) :
    List.lookup k (kvs.foldl (fun o kv => objSet o kv.1 kv.2) init) =
      (List.lookup k kvs.reverse).or (List.lookup k init) := by
  induction kvs generalizing init with
  | nil => simp
  | cons kv rest ih =>
    obtain ⟨k0, v0⟩ := kv
    rw [List.foldl_cons, ih, List.reverse_cons, lookup_append_or, Option.or_assoc]
    congr 1
    by_cases hk : k = k0
    · subst hk
      simp [List.lookup_cons, lookup_objSet_self]
    · simp [List.lookup_cons, beqF (fun he => hk he.symm), lookup_objSet_ne _ _ _ _ hk]

theorem lookup_buildObj (kvs : List (String × JValue)) (k : String) :
    List.lookup k (buildObj kvs) = List.lookup k kvs.reverse := by
  simpa using lookup_foldl_objSet kvs [] k

end Culk

/-! ## Loop Returns: chunking and sanitisation -/

namespace LoopReturns

open Culk

theorem chunkFrom_pos (endD chunkDays current : Nat) (h1 : current < endD)
    (h2 : 0 < chunkDays) :
    chunkFrom endD chunkDays current =
      (current, min (current + chunkDays) endD) ::
        chunkFrom endD chunkDays (min (current + chunkDays) endD) := by
  rw [chunkFrom]
  rw [dif_pos ⟨h1, h2⟩]

theorem chunkFrom_neg (endD chunkDays current : Nat)
    (h : ¬ (current < endD ∧ 0 < chunkDays)) :
    chunkFrom endD chunkDays current = [] := by
  rw [chunkFrom]
  rw [dif_neg h]

theorem getLast?_cons_ne_nil (x : Nat × Nat) (l : List (Nat × Nat)) (h : l ≠ []) :
    (x :: l).getLast? = l.getLast? := by
  cases l with
  | nil => exact absurd rfl h
  | cons y t => rfl

theorem chunkFrom_spec (endD chunkDays : Nat) (h2 : 0 < chunkDays) :
    ∀ current, current < endD →
      chunkFrom endD chunkDays current ≠ [] ∧
      (chunkFrom endD chunkDays current).head?.map Prod.fst = some current ∧
      (chunkFrom endD chunkDays current).getLast?.map Prod.snd = some endD ∧
      List.Chain' (fun p q => p.2 = q.1) (chunkFrom endD chunkDays current) ∧
      (chunkFrom endD chunkDays current).Forall
        (fun p => p.1 < p.2 ∧ p.2 - p.1 ≤ chunkDays) := by
  suffices H : ∀ n current, endD - current ≤ n → current < endD →
      chunkFrom endD chunkDays current ≠ [] ∧
      (chunkFrom endD chunkDays current).head?.map Prod.fst = some current ∧
      (chunkFrom endD chunkDays current).getLast?.map Prod.snd = some endD ∧
      List.Chain' (fun p q => p.2 = q.1) (chunkFrom endD chunkDays current) ∧
      (chunkFrom endD chunkDays current).Forall
        (fun p => p.1 < p.2 ∧ p.2 - p.1 ≤ chunkDays) by
    intro current hc
    exact H (endD - current) current le_rfl hc
  intro n
  induction n with
  | zero =>
    intro c h1 hc
    omega
  | succ n ih =>
    intro c hle hlt
    have hcm : c < min (c + chunkDays) endD := lt_min (by omega) hlt
    have hmle : min (c + chunkDays) endD ≤ c + chunkDays := min_le_left _ _
    have hmle2 : min (c + chunkDays) endD ≤ endD := min_le_right _ _
    rw [chunkFrom_pos endD chunkDays c hlt h2]
    by_cases hme : min (c + chunkDays) endD < endD
    · obtain ⟨hne, hhead, hlast, hchain, hall⟩ :=
        ih (min (c + chunkDays) endD) (by omega) hme
      refine ⟨by simp, by simp, ?_, ?_, ?_⟩
      · rw [getLast?_cons_ne_nil _ _ hne]
        exact hlast
      · rw [List.chain'_cons']
        refine ⟨?_, hchain⟩
        intro b hb
        rcases hx : (chunkFrom endD chunkDays (min (c + chunkDays) endD)).head? with
          _ | ⟨p⟩
        · rw [hx] at hb; cases hb
        · rw [hx] at hb
          rw [hx] at hhead
          have hb2 : p = b := by simpa using hb
          rw [← hb2]
          have : p.1 = min (c + chunkDays) endD := by
            simpa using hhead
          rw [this]
      · rw [List.forall_cons]
        exact ⟨⟨hcm, by omega⟩, hall⟩
    · have hmeq : min (c + chunkDays) endD = endD := by omega
      rw [hmeq, chunkFrom_neg endD chunkDays endD (by omega)]
      refine ⟨by simp, by simp, by simp, by simp, ?_⟩
      rw [List.forall_cons]
      refine ⟨⟨hlt, by omega⟩, by simp⟩

/-- C9: for dates `start < end` and `chunk_days > 0`, `chunk_date_range`
returns a non-empty list of pairs that exactly covers the interval: the
first component of the first pair is `start`, the second component of
the last pair is `end`, adjacent pairs share their endpoint, every pair
spans at least one and at most `chunk_days` days; and when
`start >= end` the result is empty. -/
theorem chunk_date_range_covers (s e cd : Nat) (hcd : 0 < cd) :
    (e ≤ s → chunk_date_range s e cd = []) ∧
    (s < e →
      chunk_date_range s e cd ≠ [] ∧
      (chunk_date_range s e cd).head?.map Prod.fst = some s ∧
      (chunk_date_range s e cd).getLast?.map Prod.snd = some e ∧
      List.Chain' (fun p q => p.2 = q.1) (chunk_date_range s e cd) ∧
      (chunk_date_range s e cd).Forall
        (fun p => p.1 < p.2 ∧ p.2 - p.1 ≤ cd)) := by
  constructor
  · intro hle
    exact chunkFrom_neg e cd s (by omega)
  · intro hlt
    exact chunkFrom_spec e cd hcd s hlt

/-- Witness for C9 at `start = 0`, `end = 250`, `chunk_days = 100`. -/
theorem chunk_date_range_covers_witness :
    0 < 100 ∧
    ((250 ≤ 0 → chunk_date_range 0 250 100 = []) ∧
    (0 < 250 →
      chunk_date_range 0 250 100 ≠ [] ∧
      (chunk_date_range 0 250 100).head?.map Prod.fst = some 0 ∧
      (chunk_date_range 0 250 100).getLast?.map Prod.snd = some 250 ∧
      List.Chain' (fun p q => p.2 = q.1) (chunk_date_range 0 250 100) ∧
      (chunk_date_range 0 250 100).Forall
        (fun p => p.1 < p.2 ∧ p.2 - p.1 ≤ 100))) :=
  ⟨by decide, chunk_date_range_covers 0 250 100 (by decide)⟩

end LoopReturns

namespace LoopReturns

open Culk

theorem objPop_pair_idem (r : Obj) (a b : String) :
    objPop (objPop (objPop (objPop r a) b) a) b = objPop (objPop r a) b := by
  rw [objPop_comm (objPop r a) b a, objPop_idem r a, objPop_idem (objPop r a) b]

theorem sanitize_eq_obj (r : Obj) (m : List (String × JValue))
    (hv : List.lookup "return_method" (objPop (objPop r "customer") "status_page_url")
      = some (JValue.obj m)) :
    sanitize_return r = objSet (objPop (objPop r "customer") "status_page_url")
      "return_method" (JValue.obj (objPop (objPop m "address") "qr_code_url")) := by
  unfold sanitize_return
  simp only [hv]

theorem sanitize_eq_none (r : Obj)
    (hv : List.lookup "return_method" (objPop (objPop r "customer") "status_page_url")
      = none) :
    sanitize_return r = objPop (objPop r "customer") "status_page_url" := by
  unfold sanitize_return
  simp only [hv]

theorem sanitize_eq_nonobj (r : Obj) (v : JValue)
    (hv : List.lookup "return_method" (objPop (objPop r "customer") "status_page_url")
      = some v)
    (hno : ∀ m, v ≠ JValue.obj m) :
    sanitize_return r = objPop (objPop r "customer") "status_page_url" := by
  cases v with
  | obj m => exact absurd rfl (hno m)
  | null => unfold sanitize_return; simp only [hv]
  | bool b => unfold sanitize_return; simp only [hv]
  | num n => unfold sanitize_return; simp only [hv]
  | str s => unfold sanitize_return; simp only [hv]
  | arr l => unfold sanitize_return; simp only [hv]

/-- C10: `sanitize_return` removes exactly `customer` and
`status_page_url` at the top level and, when `return_method` holds a
dict, `address` and `qr_code_url` inside it; every other binding is
unchanged, and the function is idempotent. -/
theorem sanitize_return_removes_pii (r : Obj) :
    List.lookup "customer" (sanitize_return r) = none ∧
    List.lookup "status_page_url" (sanitize_return r) = none ∧
    (∀ k, k ≠ "customer" → k ≠ "status_page_url" → k ≠ "return_method" →
      List.lookup k (sanitize_return r) = List.lookup k r) ∧
    (∀ m, List.lookup "return_method" r = some (JValue.obj m) →
      ∃ m2, List.lookup "return_method" (sanitize_return r) = some (JValue.obj m2) ∧
        List.lookup "address" m2 = none ∧
        List.lookup "qr_code_url" m2 = none ∧
        ∀ k, k ≠ "address" → k ≠ "qr_code_url" →
          List.lookup k m2 = List.lookup k m) ∧
    (∀ v, List.lookup "return_method" r = some v → (∀ m, v ≠ JValue.obj m) →
      List.lookup "return_method" (sanitize_return r) = some v) ∧
    (List.lookup "return_method" r = none →
      List.lookup "return_method" (sanitize_return r) = none) ∧
    sanitize_return (sanitize_return r) = sanitize_return r := by
  have hlc : List.lookup "customer"
      (objPop (objPop r "customer") "status_page_url") = none := by
    rw [lookup_objPop_ne _ _ _ (by decide), lookup_objPop_self]
  have hls : List.lookup "status_page_url"
      (objPop (objPop r "customer") "status_page_url") = none :=
    lookup_objPop_self _ _
  have hlrm : List.lookup "return_method"
      (objPop (objPop r "customer") "status_page_url")
      = List.lookup "return_method" r := by
    rw [lookup_objPop_ne _ _ _ (by decide), lookup_objPop_ne _ _ _ (by decide)]
  have hlk : ∀ k, k ≠ "customer" → k ≠ "status_page_url" →
      List.lookup k (objPop (objPop r "customer") "status_page_url")
        = List.lookup k r := by
    intro k h1 h2
    rw [lookup_objPop_ne _ _ _ h2, lookup_objPop_ne _ _ _ h1]
  have hpp : objPop (objPop (objPop (objPop r "customer") "status_page_url")
      "customer") "status_page_url"
      = objPop (objPop r "customer") "status_page_url" :=
    objPop_pair_idem r _ _
  rcases hv : List.lookup "return_method"
      (objPop (objPop r "customer") "status_page_url") with _ | v
  · have hs := sanitize_eq_none r hv
    rw [hs]
    refine ⟨hlc, hls, fun k h1 h2 _ => hlk k h1 h2, ?_, ?_, ?_, ?_⟩
    · intro m hm
      rw [← hlrm, hv] at hm
      cases hm
    · intro v hv2 hno
      rw [← hlrm, hv] at hv2
      cases hv2
    · intro _
      exact hv
    · have h7 := sanitize_eq_none (objPop (objPop r "customer") "status_page_url")
        (by rw [hpp]; exact hv)
      rw [h7, hpp]
  · by_cases hobj : ∃ m, v = JValue.obj m
    · obtain ⟨m, rfl⟩ := hobj
      have hs := sanitize_eq_obj r m hv
      have hvr : List.lookup "return_method" r = some (JValue.obj m) := by
        rw [← hlrm]; exact hv
      refine ⟨?_, ?_, ?_, ?_, ?_, ?_, ?_⟩
      · rw [hs, lookup_objSet_ne _ _ _ _ (by decide)]
        exact hlc
      · rw [hs, lookup_objSet_ne _ _ _ _ (by decide)]
        exact hls
      · intro k h1 h2 h3
        rw [hs, lookup_objSet_ne _ _ _ _ h3]
        exact hlk k h1 h2
      · intro m0 hm0
        have hmm : m = m0 := by
          rw [hvr] at hm0
          simpa using hm0
        subst hmm
        refine ⟨objPop (objPop m "address") "qr_code_url", ?_, ?_, ?_, ?_⟩
        · rw [hs, lookup_objSet_self]
        · rw [lookup_objPop_ne _ _ _ (by decide), lookup_objPop_self]
        · exact lookup_objPop_self _ _
        · intro k h1 h2
          rw [lookup_objPop_ne _ _ _ h2, lookup_objPop_ne _ _ _ h1]
      · intro v hv2 hno
        rw [hvr] at hv2
        have : v = JValue.obj m := by
          simpa using hv2.symm
        exact absurd this (hno m)
      · intro h0
        rw [hvr] at h0
        cases h0
      · have hkeys : ∀ p ∈ objSet (objPop (objPop r "customer") "status_page_url")
            "return_method" (JValue.obj (objPop (objPop m "address") "qr_code_url")),
            p.1 ≠ "customer" ∧ p.1 ≠ "status_page_url" := by
          intro p hp
          rcases mem_objSet _ _ _ _ hp with h1 | h1
          · rw [h1]
            exact ⟨by decide, by decide⟩
          · obtain ⟨hne1, h1⟩ := mem_objPop _ _ _ h1
            obtain ⟨hne2, _⟩ := mem_objPop _ _ _ h1
            exact ⟨hne2, hne1⟩
        have e1 : objPop (objSet (objPop (objPop r "customer") "status_page_url")
            "return_method" (JValue.obj (objPop (objPop m "address") "qr_code_url")))
            "customer"
            = objSet (objPop (objPop r "customer") "status_page_url")
              "return_method" (JValue.obj (objPop (objPop m "address") "qr_code_url")) :=
          objPop_eq_self _ _ (fun p hp => (hkeys p hp).1)
        have e2 : objPop (objSet (objPop (objPop r "customer") "status_page_url")
            "return_method" (JValue.obj (objPop (objPop m "address") "qr_code_url")))
            "status_page_url"
            = objSet (objPop (objPop r "customer") "status_page_url")
              "return_method" (JValue.obj (objPop (objPop m "address") "qr_code_url")) :=
          objPop_eq_self _ _ (fun p hp => (hkeys p hp).2)
        have hpop : objPop (objPop (objSet (objPop (objPop r "customer")
            "status_page_url") "return_method"
            (JValue.obj (objPop (objPop m "address") "qr_code_url"))) "customer")
            "status_page_url"
            = objSet (objPop (objPop r "customer") "status_page_url")
              "return_method" (JValue.obj (objPop (objPop m "address") "qr_code_url")) := by
          rw [e1, e2]
        have h7 := sanitize_eq_obj
          (objSet (objPop (objPop r "customer") "status_page_url") "return_method"
            (JValue.obj (objPop (objPop m "address") "qr_code_url")))
          (objPop (objPop m "address") "qr_code_url")
          (by rw [hpop, lookup_objSet_self])
        rw [hs, h7, hpop, objPop_pair_idem m "address" "qr_code_url", objSet_idem]
    · have hno : ∀ m, v ≠ JValue.obj m := fun m he => hobj ⟨m, he⟩
      have hs := sanitize_eq_nonobj r v hv hno
      have hvr : List.lookup "return_method" r = some v := by
        rw [← hlrm]; exact hv
      rw [hs]
      refine ⟨hlc, hls, fun k h1 h2 _ => hlk k h1 h2, ?_, ?_, ?_, ?_⟩
      · intro m hm
        rw [hvr] at hm
        have : v = JValue.obj m := by simpa using hm
        exact absurd this (hno m)
      · intro v2 hv2 hno2
        have : v2 = v := by
          rw [hvr] at hv2
          simpa using hv2.symm
        rw [this]
        exact hv
      · intro h0
        rw [hvr] at h0
        cases h0
      · have h7 := sanitize_eq_nonobj (objPop (objPop r "customer") "status_page_url")
          v (by rw [hpp]; exact hv) hno
        rw [h7, hpp]

end LoopReturns

namespace LoopReturns

open Culk

/-- Witness for C10 at a concrete return record. -/
theorem sanitize_return_removes_pii_witness :
    sanitize_return
        [("id", JValue.num 1), ("customer", JValue.str "x"),
         ("status_page_url", JValue.str "u"),
         ("return_method", JValue.obj
            [("type", JValue.str "ship"), ("address", JValue.str "a"),
             ("qr_code_url", JValue.str "q")])]
      = [("id", JValue.num 1),
         ("return_method", JValue.obj [("type", JValue.str "ship")])] ∧
    (List.lookup "customer" (sanitize_return
        [("id", JValue.num 1), ("customer", JValue.str "x"),
         ("status_page_url", JValue.str "u"),
         ("return_method", JValue.obj
            [("type", JValue.str "ship"), ("address", JValue.str "a"),
             ("qr_code_url", JValue.str "q")])]) = none ∧
      List.lookup "status_page_url" (sanitize_return
        [("id", JValue.num 1), ("customer", JValue.str "x"),
         ("status_page_url", JValue.str "u"),
         ("return_method", JValue.obj
            [("type", JValue.str "ship"), ("address", JValue.str "a"),
             ("qr_code_url", JValue.str "q")])]) = none ∧
      (∀ k, k ≠ "customer" → k ≠ "status_page_url" → k ≠ "return_method" →
        List.lookup k (sanitize_return
          [("id", JValue.num 1), ("customer", JValue.str "x"),
           ("status_page_url", JValue.str "u"),
           ("return_method", JValue.obj
              [("type", JValue.str "ship"), ("address", JValue.str "a"),
               ("qr_code_url", JValue.str "q")])])
          = List.lookup k
          [("id", JValue.num 1), ("customer", JValue.str "x"),
           ("status_page_url", JValue.str "u"),
           ("return_method", JValue.obj
              [("type", JValue.str "ship"), ("address", JValue.str "a"),
               ("qr_code_url", JValue.str "q")])]) ∧
      (∀ m, List.lookup "return_method"
          [("id", JValue.num 1), ("customer", JValue.str "x"),
           ("status_page_url", JValue.str "u"),
           ("return_method", JValue.obj
              [("type", JValue.str "ship"), ("address", JValue.str "a"),
               ("qr_code_url", JValue.str "q")])] = some (JValue.obj m) →
        ∃ m2, List.lookup "return_method" (sanitize_return
            [("id", JValue.num 1), ("customer", JValue.str "x"),
             ("status_page_url", JValue.str "u"),
             ("return_method", JValue.obj
                [("type", JValue.str "ship"), ("address", JValue.str "a"),
                 ("qr_code_url", JValue.str "q")])]) = some (JValue.obj m2) ∧
          List.lookup "address" m2 = none ∧
          List.lookup "qr_code_url" m2 = none ∧
          ∀ k, k ≠ "address" → k ≠ "qr_code_url" →
            List.lookup k m2 = List.lookup k m) ∧
      (∀ v, List.lookup "return_method"
          [("id", JValue.num 1), ("customer", JValue.str "x"),
           ("status_page_url", JValue.str "u"),
           ("return_method", JValue.obj
              [("type", JValue.str "ship"), ("address", JValue.str "a"),
               ("qr_code_url", JValue.str "q")])] = some v →
        (∀ m, v ≠ JValue.obj m) →
        List.lookup "return_method" (sanitize_return
          [("id", JValue.num 1), ("customer", JValue.str "x"),
           ("status_page_url", JValue.str "u"),
           ("return_method", JValue.obj
              [("type", JValue.str "ship"), ("address", JValue.str "a"),
               ("qr_code_url", JValue.str "q")])]) = some v) ∧
      (List.lookup "return_method"
          [("id", JValue.num 1), ("customer", JValue.str "x"),
           ("status_page_url", JValue.str "u"),
           ("return_method", JValue.obj
              [("type", JValue.str "ship"), ("address", JValue.str "a"),
               ("qr_code_url", JValue.str "q")])] = none →
        List.lookup "return_method" (sanitize_return
          [("id", JValue.num 1), ("customer", JValue.str "x"),
           ("status_page_url", JValue.str "u"),
           ("return_method", JValue.obj
              [("type", JValue.str "ship"), ("address", JValue.str "a"),
               ("qr_code_url", JValue.str "q")])]) = none) ∧
      sanitize_return (sanitize_return
        [("id", JValue.num 1), ("customer", JValue.str "x"),
         ("status_page_url", JValue.str "u"),
         ("return_method", JValue.obj
            [("type", JValue.str "ship"), ("address", JValue.str "a"),
             ("qr_code_url", JValue.str "q")])])
        = sanitize_return
        [("id", JValue.num 1), ("customer", JValue.str "x"),
         ("status_page_url", JValue.str "u"),
         ("return_method", JValue.obj
            [("type", JValue.str "ship"), ("address", JValue.str "a"),
             ("qr_code_url", JValue.str "q")])]) :=
  ⟨by rfl,
   sanitize_return_removes_pii
     [("id", JValue.num 1), ("customer", JValue.str "x"),
      ("status_page_url", JValue.str "u"),
      ("return_method", JValue.obj
         [("type", JValue.str "ship"), ("address", JValue.str "a"),
          ("qr_code_url", JValue.str "q")])]⟩

end LoopReturns

/-! ## ShipHero fetch: retry, backoff, throttling, authentication -/

namespace ShipHero

/-- C1 counterexample: with `max_retries = 3` and the transport
returning HTTP 500 on every call, `for attempt in range(max_retries)`
issues exactly 3 calls (after 2 backoff sleeps) before the fatal error,
not 4 calls after 3 retries as claimed. -/
theorem fetch_all_500_three_calls_not_four :
    (fetch_shiphero_graphql Nat (fun _ => plainResp Nat 500 0) 3 1).calls = 3 ∧
    ¬ (fetch_shiphero_graphql Nat (fun _ => plainResp Nat 500 0) 3 1).calls = 4 ∧
    (fetch_shiphero_graphql Nat (fun _ => plainResp Nat 500 0) 3 1).outcome
      = Except.error (FetchError.httpFatal 500) ∧
    (fetch_shiphero_graphql Nat (fun _ => plainResp Nat 500 0) 3 1).sleeps
      = [1, 2] := by
  refine ⟨?_, ?_, ?_, ?_⟩ <;>
    simp [fetch_shiphero_graphql, fetchGo, afterLoop, plainResp, List.range_succ]

/-- C1 amended: with `max_retries = 3`, if the first 3 calls all return
HTTP 500 then the fetch raises the fatal `ShipHeroAPIError` for HTTP
500 after exactly 2 retry attempts, i.e. 3 total calls, with backoff
sleeps `base_delay * 2 ^ 0` and `base_delay * 2 ^ 1`. -/
theorem fetch_500_exhausts_after_three_calls (α : Type)
    (script : Nat → ScriptEntry α) (d : Rat) (r0 r1 r2 : HttpResponse α)
    (h0 : script 0 = ScriptEntry.resp r0) (h0s : r0.status = 500)
    (h1 : script 1 = ScriptEntry.resp r1) (h1s : r1.status = 500)
    (h2 : script 2 = ScriptEntry.resp r2) (h2s : r2.status = 500) :
    fetch_shiphero_graphql α script 3 d
      = ⟨Except.error (FetchError.httpFatal 500), 3,
         [d * 2 ^ (0 : Nat), d * 2 ^ (1 : Nat)]⟩ := by
  simp [fetch_shiphero_graphql, fetchGo, List.range_succ,
    h0, h1, h2, h0s, h1s, h2s]

/-- Witness for the amended C1 at a concrete all-500 script. -/
theorem fetch_500_exhausts_after_three_calls_witness :
    fetch_shiphero_graphql Nat (fun _ => plainResp Nat 500 0) 3 1
      = ⟨Except.error (FetchError.httpFatal 500), 3,
         [1 * 2 ^ (0 : Nat), 1 * 2 ^ (1 : Nat)]⟩ :=
  fetch_500_exhausts_after_three_calls Nat (fun _ => plainResp Nat 500 0) 1
    _ _ _ rfl rfl rfl rfl rfl rfl

/-- C2 counterexample: with `max_retries = 3`, three consecutive HTTP
500 responses exhaust the loop before the 4th (successful) call is ever
made: the fetch raises instead of succeeding, and only the sleeps
`1s, 2s` happen (never `4s`). -/
theorem fetch_500x3_then_200_fails :
    (fetch_shiphero_graphql Nat
      (fun i => if i < 3 then plainResp Nat 500 0 else plainResp Nat 200 7)
      3 1).outcome = Except.error (FetchError.httpFatal 500) ∧
    (fetch_shiphero_graphql Nat
      (fun i => if i < 3 then plainResp Nat 500 0 else plainResp Nat 200 7)
      3 1).calls = 3 ∧
    (fetch_shiphero_graphql Nat
      (fun i => if i < 3 then plainResp Nat 500 0 else plainResp Nat 200 7)
      3 1).sleeps = [1, 2] := by
  refine ⟨?_, ?_, ?_⟩ <;>
    simp [fetch_shiphero_graphql, fetchGo, afterLoop, plainResp, List.range_succ]

/-- C2 amended: with `max_retries = 3` and `base_delay = d`, if the
first 2 calls return HTTP 500 and the 3rd returns 200 with no GraphQL
errors, the fetch succeeds with that response and the backoff delays
are `d * 2 ^ 0` and `d * 2 ^ 1` (1s and 2s for `d = 1`); no
`ExhaustedRetriesError` is raised. -/
theorem fetch_backoff_then_success (α : Type)
    (script : Nat → ScriptEntry α) (d : Rat) (r0 r1 r2 : HttpResponse α)
    (h0 : script 0 = ScriptEntry.resp r0) (h0s : r0.status = 500)
    (h1 : script 1 = ScriptEntry.resp r1) (h1s : r1.status = 500)
    (h2 : script 2 = ScriptEntry.resp r2) (h2s : r2.status = 200)
    (h2e : r2.body.errors = none) :
    fetch_shiphero_graphql α script 3 d
      = ⟨Except.ok r2.body.payload, 3,
         [d * 2 ^ (0 : Nat), d * 2 ^ (1 : Nat)]⟩ := by
  simp [fetch_shiphero_graphql, fetchGo, afterLoop, List.range_succ,
    h0, h1, h2, h0s, h1s, h2s, h2e]

/-- Witness for the amended C2: two 500s then a 200 with payload 9. -/
theorem fetch_backoff_then_success_witness :
    fetch_shiphero_graphql Nat
      (fun i => if i < 2 then plainResp Nat 500 0 else plainResp Nat 200 9) 3 1
      = ⟨Except.ok 9, 3, [1 * 2 ^ (0 : Nat), 1 * 2 ^ (1 : Nat)]⟩ :=
  fetch_backoff_then_success Nat
    (fun i => if i < 2 then plainResp Nat 500 0 else plainResp Nat 200 9) 1
    _ _ _ rfl rfl rfl rfl rfl rfl rfl

/-- C4 counterexample: with `max_retries = 3`, three consecutive HTTP
429 responses followed by a success do NOT yield the success: every
429 `continue` advances the `for attempt in range(max_retries)` loop,
so the attempt counter is consumed, the loop exhausts after 3 calls,
and the function then crashes reading the never-assigned variable
`data` (`UnboundLocalError`). -/
theorem fetch_429_consumes_attempts :
    (fetch_shiphero_graphql Nat
      (fun i => if i < 3 then ScriptEntry.resp ⟨429, 60, ⟨none, 0⟩⟩
                else plainResp Nat 200 7) 3 1).outcome
      = Except.error FetchError.unboundLocal ∧
    ¬ (fetch_shiphero_graphql Nat
      (fun i => if i < 3 then ScriptEntry.resp ⟨429, 60, ⟨none, 0⟩⟩
                else plainResp Nat 200 7) 3 1).outcome = Except.ok 7 ∧
    (fetch_shiphero_graphql Nat
      (fun i => if i < 3 then ScriptEntry.resp ⟨429, 60, ⟨none, 0⟩⟩
                else plainResp Nat 200 7) 3 1).calls = 3 := by
  refine ⟨?_, ?_, ?_⟩ <;>
    simp [fetch_shiphero_graphql, fetchGo, afterLoop, plainResp, List.range_succ]

/-- C4 amended: 429 re-attempts share the `for attempt in
range(max_retries)` counter with fatal failures; with `max_retries = 3`
a run of at most 2 consecutive 429 responses followed by a success
returns the successful response (one call per 429 plus the final one),
while 3 consecutive 429s exhaust the loop and fail. -/
theorem fetch_429_within_cap_succeeds (α : Type)
    (script : Nat → ScriptEntry α) (d : Rat) (k : Nat) (hk : k < 3)
    (h429 : ∀ i, i < k → ∃ r, script i = ScriptEntry.resp r ∧ r.status = 429)
    (rs : HttpResponse α) (hs : script k = ScriptEntry.resp rs)
    (hst : rs.status = 200) (he : rs.body.errors = none) :
    (fetch_shiphero_graphql α script 3 d).outcome = Except.ok rs.body.payload ∧
    (fetch_shiphero_graphql α script 3 d).calls = k + 1 := by
  interval_cases k
  · refine ⟨?_, ?_⟩ <;>
      simp [fetch_shiphero_graphql, fetchGo, afterLoop, List.range_succ,
        hs, hst, he]
  · obtain ⟨r0, h0, h0s⟩ := h429 0 (by omega)
    refine ⟨?_, ?_⟩ <;>
      simp [fetch_shiphero_graphql, fetchGo, afterLoop, List.range_succ,
        h0, h0s, hs, hst, he]
  · obtain ⟨r0, h0, h0s⟩ := h429 0 (by omega)
    obtain ⟨r1, h1, h1s⟩ := h429 1 (by omega)
    refine ⟨?_, ?_⟩ <;>
      simp [fetch_shiphero_graphql, fetchGo, afterLoop, List.range_succ,
        h0, h0s, h1, h1s, hs, hst, he]

/-- Witness for the amended C4: two 429s then a 200 with payload 7. -/
theorem fetch_429_within_cap_succeeds_witness :
    (2 : Nat) < 3 ∧
    ((fetch_shiphero_graphql Nat
      (fun i => if i < 2 then ScriptEntry.resp ⟨429, 60, ⟨none, 0⟩⟩
                else plainResp Nat 200 7) 3 1).outcome = Except.ok 7 ∧
    (fetch_shiphero_graphql Nat
      (fun i => if i < 2 then ScriptEntry.resp ⟨429, 60, ⟨none, 0⟩⟩
                else plainResp Nat 200 7) 3 1).calls = 2 + 1) :=
  ⟨by decide,
   fetch_429_within_cap_succeeds Nat
    (fun i => if i < 2 then ScriptEntry.resp ⟨429, 60, ⟨none, 0⟩⟩
              else plainResp Nat 200 7) 1 2 (by decide)
    (fun i hi => by interval_cases i <;> exact ⟨_, rfl, rfl⟩)
    ⟨200, 60, ⟨none, 7⟩⟩ rfl rfl rfl⟩

/-- C5: a 401 response is never retried: whatever the remaining script
holds, exactly one HTTP call is made, no sleep happens, and the fetch
raises the token-expired `ShipHeroAPIError` immediately. -/
theorem fetch_401_no_retry (α : Type) (script : Nat → ScriptEntry α)
    (maxRetries : Nat) (d : Rat) (r : HttpResponse α)
    (hm : 0 < maxRetries) (h0 : script 0 = ScriptEntry.resp r)
    (hst : r.status = 401) :
    fetch_shiphero_graphql α script maxRetries d
      = ⟨Except.error FetchError.auth, 1, []⟩ := by
  obtain ⟨m, rfl⟩ : ∃ m, maxRetries = m + 1 := ⟨maxRetries - 1, by omega⟩
  rw [fetch_shiphero_graphql, List.range_succ_eq_map]
  simp [fetchGo, h0, hst]

/-- Witness for C5 at a concrete 401 script with `max_retries = 3`. -/
theorem fetch_401_no_retry_witness :
    (0 : Nat) < 3 ∧
    fetch_shiphero_graphql Nat
      (fun _ => ScriptEntry.resp ⟨401, 60, ⟨none, 0⟩⟩) 3 1
      = ⟨Except.error FetchError.auth, 1, []⟩ :=
  ⟨by decide,
   fetch_401_no_retry Nat (fun _ => ScriptEntry.resp ⟨401, 60, ⟨none, 0⟩⟩)
     3 1 ⟨401, 60, ⟨none, 0⟩⟩ (by decide) rfl rfl⟩

end ShipHero

/-! ## Cursor paginators -/

namespace ShipHero

theorem productsCalls_all_filter (uf : String) :
    ∀ (pages : List Page) (c : Option String),
      ∀ v ∈ productsCalls uf pages c, v.updatedFrom = some uf := by
  intro pages
  induction pages with
  | nil => intro c v hv; cases hv
  | cons p rest ih =>
    intro c v hv
    rw [productsCalls] at hv
    rcases List.mem_cons.mp hv with hv | hv
    · rw [hv]
    · by_cases hn : p.hasNextPage
      · rw [if_pos hn] at hv
        exact ih p.endCursor v hv
      · rw [if_neg hn] at hv
        cases hv

theorem productsCalls_stop (uf : String) :
    ∀ (front : List Page) (last : Page) (rest : List Page) (c : Option String),
      (∀ p ∈ front, p.hasNextPage = true) → last.hasNextPage = false →
      (productsCalls uf (front ++ last :: rest) c).length = front.length + 1 := by
  intro front
  induction front with
  | nil =>
    intro last rest c _ hlast
    rw [List.nil_append, productsCalls, hlast]
    simp
  | cons p f ih =>
    intro last rest c hfront hlast
    have hp : p.hasNextPage = true := hfront p (List.mem_cons_self _ _)
    rw [List.cons_append, productsCalls, hp]
    simp only [if_true, List.length_cons]
    rw [ih last rest p.endCursor (fun q hq => hfront q (List.mem_cons_of_mem _ hq)) hlast]

theorem ordersCalls_all_filter (uam : String) :
    ∀ (pages : List Page) (c : Option String),
      ∀ v ∈ Shopify.ordersCalls uam pages c,
        v.query = some ("updated_at:>" ++ "\x27" ++ uam ++ "\x27") := by
  intro pages
  induction pages with
  | nil => intro c v hv; cases hv
  | cons p rest ih =>
    intro c v hv
    rw [Shopify.ordersCalls] at hv
    rcases List.mem_cons.mp hv with hv | hv
    · rw [hv]
    · by_cases hn : p.hasNextPage
      · rw [if_pos hn] at hv
        exact ih p.endCursor v hv
      · rw [if_neg hn] at hv
        cases hv

theorem ordersCalls_stop (uam : String) :
    ∀ (front : List Page) (last : Page) (rest : List Page) (c : Option String),
      (∀ p ∈ front, p.hasNextPage = true) → last.hasNextPage = false →
      (Shopify.ordersCalls uam (front ++ last :: rest) c).length
        = front.length + 1 := by
  intro front
  induction front with
  | nil =>
    intro last rest c _ hlast
    rw [List.nil_append, Shopify.ordersCalls, hlast]
    simp
  | cons p f ih =>
    intro last rest c hfront hlast
    have hp : p.hasNextPage = true := hfront p (List.mem_cons_self _ _)
    rw [List.cons_append, Shopify.ordersCalls, hp]
    simp only [if_true, List.length_cons]
    rw [ih last rest p.endCursor (fun q hq => hfront q (List.mem_cons_of_mem _ hq)) hlast]

/-- C3 counterexample: for a two-page chain `c1 -> null`, the second
call of the ShipHero `products` loop still passes the `updatedFrom`
filter together with the cursor (the variables dict is rebuilt with
both keys on every iteration); the claim expects the filter omitted. -/
theorem products_second_call_keeps_filter :
    (productsRun "2024-01-01T00:00:00Z"
        [⟨[], true, some "c1"⟩, ⟨[], false, none⟩])[1]?
      = some ⟨some "c1", some "2024-01-01T00:00:00Z"⟩ ∧
    ¬ (productsRun "2024-01-01T00:00:00Z"
        [⟨[], true, some "c1"⟩, ⟨[], false, none⟩])[1]?
      = some ⟨some "c1", none⟩ := by
  refine ⟨by rfl, ?_⟩
  intro h
  simp [productsRun, productsCalls] at h

/-- C3 amended: for a chain of pages ending in `hasNextPage = false`,
both hand-rolled paginators (ShipHero `products`, Shopify `orders`)
issue exactly `len(pages)` calls, the first call passes a null cursor,
and EVERY call (not only the first) passes the initial filter parameter
alongside the cursor: the filter is never omitted. -/
theorem paginator_call_count_and_filter (uf uam : String)
    (front : List Page) (last : Page)
    (hfront : ∀ p ∈ front, p.hasNextPage = true)
    (hlast : last.hasNextPage = false) :
    (productsRun uf (front ++ [last])).length = (front ++ [last]).length ∧
    (productsRun uf (front ++ [last])).head?.map (fun v => v.cursor)
      = some none ∧
    (∀ v ∈ productsRun uf (front ++ [last]), v.updatedFrom = some uf) ∧
    (Shopify.ordersRun uam (front ++ [last])).length
      = (front ++ [last]).length ∧
    (∀ v ∈ Shopify.ordersRun uam (front ++ [last]),
      v.query = some ("updated_at:>" ++ "\x27" ++ uam ++ "\x27")) := by
  refine ⟨?_, ?_, ?_, ?_, ?_⟩
  · rw [productsRun, productsCalls_stop uf front last [] none hfront hlast]
    simp
  · cases front with
    | nil => rw [productsRun, List.nil_append, productsCalls]; rfl
    | cons p f => rw [productsRun, List.cons_append, productsCalls]; rfl
  · exact productsCalls_all_filter uf (front ++ [last]) none
  · rw [Shopify.ordersRun, ordersCalls_stop uam front last [] none hfront hlast]
    simp
  · exact ordersCalls_all_filter uam (front ++ [last]) none

/-- Witness for the amended C3 on a concrete two-page chain. -/
theorem paginator_call_count_and_filter_witness :
    ((productsRun "2024-01-01T00:00:00Z"
        ([⟨[], true, some "c1"⟩] ++ [⟨[], false, none⟩])).length
      = ([(⟨[], true, some "c1"⟩ : Page)] ++ [(⟨[], false, none⟩ : Page)]).length ∧
    (productsRun "2024-01-01T00:00:00Z"
        ([⟨[], true, some "c1"⟩] ++ [⟨[], false, none⟩])).head?.map
        (fun v => v.cursor) = some none ∧
    (∀ v ∈ productsRun "2024-01-01T00:00:00Z"
        ([⟨[], true, some "c1"⟩] ++ [⟨[], false, none⟩]),
      v.updatedFrom = some "2024-01-01T00:00:00Z") ∧
    (Shopify.ordersRun "2024-01-01"
        ([⟨[], true, some "c1"⟩] ++ [⟨[], false, none⟩])).length
      = ([(⟨[], true, some "c1"⟩ : Page)] ++ [(⟨[], false, none⟩ : Page)]).length ∧
    (∀ v ∈ Shopify.ordersRun "2024-01-01"
        ([⟨[], true, some "c1"⟩] ++ [⟨[], false, none⟩]),
      v.query = some ("updated_at:>" ++ "\x27" ++ "2024-01-01" ++ "\x27"))) :=
  paginator_call_count_and_filter "2024-01-01T00:00:00Z" "2024-01-01"
    [⟨[], true, some "c1"⟩] ⟨[], false, none⟩
    (fun p hp => by
      rcases List.mem_cons.mp hp with h | h
      · rw [h]
      · cases h)
    rfl

/-- C6 counterexample: a page with zero records but
`hasNextPage = true` does not stop the ShipHero `products` loop: a
second call is issued, where the claim requires pagination to stop at
the empty page. -/
theorem products_empty_page_does_not_stop :
    ([(⟨[], true, some "c"⟩ : Page), ⟨[], false, none⟩].head?.map
        (fun p => p.records.length)) = some 0 ∧
    (productsRun "2024-01-01T00:00:00Z"
        [⟨[], true, some "c"⟩, ⟨[], false, none⟩]).length = 2 ∧
    ¬ (productsRun "2024-01-01T00:00:00Z"
        [⟨[], true, some "c"⟩, ⟨[], false, none⟩]).length = 1 := by
  refine ⟨by rfl, by rfl, by decide⟩

/-- C6 amended: the pagination loops are finite and terminate exactly
at the first page reporting `hasNextPage = false` — whether or not any
page (including that one) is empty; an empty page with
`hasNextPage = true` does not stop the loop. -/
theorem paginator_stops_exactly_on_last_page (uf uam : String)
    (front : List Page) (last : Page) (rest : List Page)
    (hfront : ∀ p ∈ front, p.hasNextPage = true)
    (hlast : last.hasNextPage = false) :
    (productsRun uf (front ++ last :: rest)).length = front.length + 1 ∧
    (Shopify.ordersRun uam (front ++ last :: rest)).length
      = front.length + 1 :=
  ⟨productsCalls_stop uf front last rest none hfront hlast,
   ordersCalls_stop uam front last rest none hfront hlast⟩

/-- Witness for the amended C6: an empty page with a next cursor is
followed by one more call; the loop stops at the page with
`hasNextPage = false` even though a further page is scripted. -/
theorem paginator_stops_exactly_on_last_page_witness :
    (productsRun "2024-01-01T00:00:00Z"
        ([⟨[], true, some "c1"⟩] ++ (⟨[], false, none⟩ : Page) ::
          [⟨[], true, some "c2"⟩])).length = [(⟨[], true, some "c1"⟩ : Page)].length + 1 ∧
    (Shopify.ordersRun "2024-01-01"
        ([⟨[], true, some "c1"⟩] ++ (⟨[], false, none⟩ : Page) ::
          [⟨[], true, some "c2"⟩])).length = [(⟨[], true, some "c1"⟩ : Page)].length + 1 :=
  paginator_stops_exactly_on_last_page "2024-01-01T00:00:00Z" "2024-01-01"
    [⟨[], true, some "c1"⟩] ⟨[], false, none⟩ [⟨[], true, some "c2"⟩]
    (fun p hp => by
      rcases List.mem_cons.mp hp with h | h
      · rw [h]
      · cases h)
    rfl

end ShipHero

/-! ## Flattening -/

namespace Culk

theorem lookup_eq_none (o : Obj) (k : String) (h : ∀ p ∈ o, p.1 ≠ k) :
    List.lookup k o = none := by
  induction o with
  | nil => rfl
  | cons p rest ih =>
    obtain ⟨a, b⟩ := p
    have ha : a ≠ k := h (a, b) (List.mem_cons_self _ _)
    rw [List.lookup_cons]
    rw [beqF ha]
    exact ih (fun q hq => h q (List.mem_cons_of_mem _ hq))

end Culk

namespace ShipHero

open Culk

/-- C7 counterexample: `flatten_orders` on one ShipHero order with one
line item and no shipments produces a single record — the parent — and
that record still contains both nested collection fields `line_items`
and `shipments`; no child records are emitted at all. -/
theorem flatten_orders_keeps_nested_collections :
    (flatten_orders
      [("data", JValue.obj [("edges", JValue.arr [JValue.obj [("node",
        JValue.obj
          [("id", JValue.str "o1"), ("order_number", JValue.str "1001"),
           ("order_date", JValue.str "2024-05-01"),
           ("fulfillment_status", JValue.str "fulfilled"),
           ("line_items", JValue.obj [("edges", JValue.arr [JValue.obj
             [("node", JValue.obj
               [("sku", JValue.str "S1"),
                ("product_name", JValue.str "P"),
                ("quantity", JValue.num 2),
                ("quantity_allocated", JValue.num 2),
                ("quantity_pending_fulfillment", JValue.num 0),
                ("backorder_quantity", JValue.num 0),
                ("quantity_shipped", JValue.num 2)])]])]),
           ("shipments", JValue.arr [])])]])])]).length = 1 ∧
    ((flatten_orders
      [("data", JValue.obj [("edges", JValue.arr [JValue.obj [("node",
        JValue.obj
          [("id", JValue.str "o1"), ("order_number", JValue.str "1001"),
           ("order_date", JValue.str "2024-05-01"),
           ("fulfillment_status", JValue.str "fulfilled"),
           ("line_items", JValue.obj [("edges", JValue.arr [JValue.obj
             [("node", JValue.obj
               [("sku", JValue.str "S1"),
                ("product_name", JValue.str "P"),
                ("quantity", JValue.num 2),
                ("quantity_allocated", JValue.num 2),
                ("quantity_pending_fulfillment", JValue.num 0),
                ("backorder_quantity", JValue.num 0),
                ("quantity_shipped", JValue.num 2)])]])]),
           ("shipments", JValue.arr [])])]])])]).head?.bind
        (fun rec => List.lookup "line_items" rec)).isSome = true ∧
    ((flatten_orders
      [("data", JValue.obj [("edges", JValue.arr [JValue.obj [("node",
        JValue.obj
          [("id", JValue.str "o1"), ("order_number", JValue.str "1001"),
           ("order_date", JValue.str "2024-05-01"),
           ("fulfillment_status", JValue.str "fulfilled"),
           ("line_items", JValue.obj [("edges", JValue.arr [JValue.obj
             [("node", JValue.obj
               [("sku", JValue.str "S1"),
                ("product_name", JValue.str "P"),
                ("quantity", JValue.num 2),
                ("quantity_allocated", JValue.num 2),
                ("quantity_pending_fulfillment", JValue.num 0),
                ("backorder_quantity", JValue.num 0),
                ("quantity_shipped", JValue.num 2)])]])]),
           ("shipments", JValue.arr [])])]])])]).head?.bind
        (fun rec => List.lookup "shipments" rec)).isSome = true := by
  refine ⟨by rfl, by rfl, by rfl⟩

end ShipHero

namespace Faire

open Culk

/-- C7 amended (the Faire pipeline, which does implement the claimed
behaviour): `flatten_order_items` emits one child record per element of
`items`, each carrying the parent order id under the `order_id` foreign
key (provided the raw item does not itself carry an `order_id` field,
which the `**` merge would let override the FK), and
`faire_orders_transformer` removes `items` and `shipments` from the
parent while leaving every other binding unchanged.  ShipHero's
`flatten_orders`, by contrast, emits no child records and keeps the
nested collections inside the parent. -/
theorem faire_children_and_parent (order : Obj)
    (hno : ∀ itemJ ∈ jarr order "items",
      List.lookup "order_id" (asObj itemJ) = none) :
    (flatten_order_items order).length = (jarr order "items").length ∧
    (∀ rec ∈ flatten_order_items order,
      List.lookup "order_id" rec = some (jget order "id")) ∧
    List.lookup "items" (faire_orders_transformer order) = none ∧
    List.lookup "shipments" (faire_orders_transformer order) = none ∧
    (∀ k, k ≠ "items" → k ≠ "shipments" →
      List.lookup k (faire_orders_transformer order) = List.lookup k order) := by
  refine ⟨?_, ?_, ?_, ?_, ?_⟩
  · simp [flatten_order_items]
  · intro rec hrec
    simp only [flatten_order_items] at hrec
    obtain ⟨itemJ, hmem, hfeq⟩ := List.mem_map.mp hrec
    rw [← hfeq, lookup_buildObj, List.reverse_append, lookup_append_or]
    have hfil : List.lookup "order_id"
        (List.reverse ((asObj itemJ).filter
          (fun p => !(itemExcluded.contains p.1)))) = none := by
      apply lookup_eq_none
      intro p hp
      have hp2 := List.mem_reverse.mp hp
      have hp3 := (List.mem_filter.mp hp2).1
      exact lookup_none_key _ _ (hno itemJ hmem) p hp3
    rw [hfil]
    simp [List.lookup]
  · rw [faire_orders_transformer, lookup_objPop_ne _ _ _ (by decide),
      lookup_objPop_self]
  · rw [faire_orders_transformer, lookup_objPop_self]
  · intro k h1 h2
    rw [faire_orders_transformer, lookup_objPop_ne _ _ _ h2,
      lookup_objPop_ne _ _ _ h1]

/-- Witness for the amended C7 on a concrete order with two items. -/
theorem faire_children_and_parent_witness :
    ((flatten_order_items
        [("id", JValue.str "ord1"),
         ("items", JValue.arr
           [JValue.obj [("id", JValue.str "i1"), ("sku", JValue.str "A")],
            JValue.obj [("id", JValue.str "i2"), ("sku", JValue.str "B")]]),
         ("shipments", JValue.arr [])]).length
      = (jarr
        [("id", JValue.str "ord1"),
         ("items", JValue.arr
           [JValue.obj [("id", JValue.str "i1"), ("sku", JValue.str "A")],
            JValue.obj [("id", JValue.str "i2"), ("sku", JValue.str "B")]]),
         ("shipments", JValue.arr [])] "items").length ∧
    (∀ rec ∈ flatten_order_items
        [("id", JValue.str "ord1"),
         ("items", JValue.arr
           [JValue.obj [("id", JValue.str "i1"), ("sku", JValue.str "A")],
            JValue.obj [("id", JValue.str "i2"), ("sku", JValue.str "B")]]),
         ("shipments", JValue.arr [])],
      List.lookup "order_id" rec = some (jget
        [("id", JValue.str "ord1"),
         ("items", JValue.arr
           [JValue.obj [("id", JValue.str "i1"), ("sku", JValue.str "A")],
            JValue.obj [("id", JValue.str "i2"), ("sku", JValue.str "B")]]),
         ("shipments", JValue.arr [])] "id")) ∧
    List.lookup "items" (faire_orders_transformer
        [("id", JValue.str "ord1"),
         ("items", JValue.arr
           [JValue.obj [("id", JValue.str "i1"), ("sku", JValue.str "A")],
            JValue.obj [("id", JValue.str "i2"), ("sku", JValue.str "B")]]),
         ("shipments", JValue.arr [])]) = none ∧
    List.lookup "shipments" (faire_orders_transformer
        [("id", JValue.str "ord1"),
         ("items", JValue.arr
           [JValue.obj [("id", JValue.str "i1"), ("sku", JValue.str "A")],
            JValue.obj [("id", JValue.str "i2"), ("sku", JValue.str "B")]]),
         ("shipments", JValue.arr [])]) = none ∧
    (∀ k, k ≠ "items" → k ≠ "shipments" →
      List.lookup k (faire_orders_transformer
        [("id", JValue.str "ord1"),
         ("items", JValue.arr
           [JValue.obj [("id", JValue.str "i1"), ("sku", JValue.str "A")],
            JValue.obj [("id", JValue.str "i2"), ("sku", JValue.str "B")]]),
         ("shipments", JValue.arr [])])
        = List.lookup k
        [("id", JValue.str "ord1"),
         ("items", JValue.arr
           [JValue.obj [("id", JValue.str "i1"), ("sku", JValue.str "A")],
            JValue.obj [("id", JValue.str "i2"), ("sku", JValue.str "B")]]),
         ("shipments", JValue.arr [])])) :=
  faire_children_and_parent
    [("id", JValue.str "ord1"),
     ("items", JValue.arr
       [JValue.obj [("id", JValue.str "i1"), ("sku", JValue.str "A")],
        JValue.obj [("id", JValue.str "i2"), ("sku", JValue.str "B")]]),
     ("shipments", JValue.arr [])]
    (by
      intro itemJ hmem
      rcases List.mem_cons.mp hmem with h | h
      · rw [h]; rfl
      · rcases List.mem_cons.mp h with h2 | h2
        · rw [h2]; rfl
        · cases h2)

end Faire

namespace Faire

open Culk

theorem lookup_products_transformer (product : Obj) (k : String)
    (h1 : k ≠ "taxonomy_type_id") (h2 : k ≠ "taxonomy_type_name") :
    List.lookup k (faire_products_transformer product)
      = List.lookup k (objPop (objPop (objPop (objPop (objPop product
          "images") "variants") "variant_option_sets") "product_attributes")
          "taxonomy_type") := by
  simp only [faire_products_transformer]
  rcases htax : List.lookup "taxonomy_type"
      (objPop (objPop (objPop (objPop product "images") "variants")
        "variant_option_sets") "product_attributes") with _ | v
  · rfl
  · by_cases ht : truthy v
    · simp only [ht, if_true]
      rw [lookup_objSet_ne _ _ _ _ h2, lookup_objSet_ne _ _ _ _ h1]
    · simp [ht]

/-- C8 counterexample: for a product `p1` whose `variant_option_sets`
array has 3 elements without natural ids, the synthetic id of the first
child is `p1_option_0` — the fixed label `option`, not the nested field
name `variant_option_sets` that the spec template
`{parent_id}_{field_name}_{index}` prescribes. -/
theorem option_set_id_uses_option_label :
    (flatten_product_variant_option_sets
      [("id", JValue.str "p1"),
       ("variant_option_sets", JValue.arr
         [JValue.obj [("name", JValue.str "Size")],
          JValue.obj [("name", JValue.str "Color")],
          JValue.obj []])]).length = 3 ∧
    ((flatten_product_variant_option_sets
      [("id", JValue.str "p1"),
       ("variant_option_sets", JValue.arr
         [JValue.obj [("name", JValue.str "Size")],
          JValue.obj [("name", JValue.str "Color")],
          JValue.obj []])]).head?.bind
        (fun rec => List.lookup "id" rec))
      = some (JValue.str "p1_option_0") ∧
    ¬ ((flatten_product_variant_option_sets
      [("id", JValue.str "p1"),
       ("variant_option_sets", JValue.arr
         [JValue.obj [("name", JValue.str "Size")],
          JValue.obj [("name", JValue.str "Color")],
          JValue.obj []])]).head?.bind
        (fun rec => List.lookup "id" rec))
      = some (JValue.str "p1_variant_option_sets_0") := by
  refine ⟨by rfl, by rfl, ?_⟩
  intro h
  rw [show ((flatten_product_variant_option_sets
      [("id", JValue.str "p1"),
       ("variant_option_sets", JValue.arr
         [JValue.obj [("name", JValue.str "Size")],
          JValue.obj [("name", JValue.str "Color")],
          JValue.obj []])]).head?.bind
        (fun rec => List.lookup "id" rec))
      = some (JValue.str "p1_option_0") from rfl] at h
  simp at h

/-- C8 amended: flattening a product whose nested array has n elements
produces exactly n child records; the i-th child of
`variant_option_sets` carries the parent id under `product_id` and the
synthetic id `f"{product_id}_option_{i}"` (fixed label `option`, not
the field name), the i-th `product_attributes` child gets
`f"{product_id}_attr_{i}"`; both synthetic ids are deterministic in the
parent id and index, and the parent record produced by
`faire_products_transformer` contains neither nested field. -/
theorem faire_synthetic_ids (product : Obj) :
    (flatten_product_variant_option_sets product).length
      = (jarr product "variant_option_sets").length ∧
    (∀ i, (hi : i < (flatten_product_variant_option_sets product).length) →
      List.lookup "id" (flatten_product_variant_option_sets product)[i]
        = some (JValue.str
            (pyStr (jget product "id") ++ "_option_" ++ toString i)) ∧
      List.lookup "product_id" (flatten_product_variant_option_sets product)[i]
        = some (jget product "id")) ∧
    (flatten_product_attributes product).length
      = (jarr product "product_attributes").length ∧
    (∀ i, (hi : i < (flatten_product_attributes product).length) →
      List.lookup "id" (flatten_product_attributes product)[i]
        = some (JValue.str
            (pyStr (jget product "id") ++ "_attr_" ++ toString i)) ∧
      List.lookup "product_id" (flatten_product_attributes product)[i]
        = some (jget product "id")) ∧
    List.lookup "variant_option_sets" (faire_products_transformer product)
      = none ∧
    List.lookup "product_attributes" (faire_products_transformer product)
      = none := by
  refine ⟨?_, ?_, ?_, ?_, ?_, ?_⟩
  · simp [flatten_product_variant_option_sets]
  · intro i hi
    constructor <;>
      simp [flatten_product_variant_option_sets, List.lookup]
  · simp [flatten_product_attributes]
  · intro i hi
    constructor <;>
      simp [flatten_product_attributes, List.lookup]
  · rw [lookup_products_transformer product _ (by decide) (by decide),
      lookup_objPop_ne _ _ _ (by decide), lookup_objPop_ne _ _ _ (by decide),
      lookup_objPop_self]
  · rw [lookup_products_transformer product _ (by decide) (by decide),
      lookup_objPop_ne _ _ _ (by decide), lookup_objPop_self]

/-- Witness for the amended C8 on a product with 3 option sets and one
attribute. -/
theorem faire_synthetic_ids_witness :
    ((flatten_product_variant_option_sets
        [("id", JValue.str "p1"),
         ("variant_option_sets", JValue.arr
           [JValue.obj [("name", JValue.str "Size")],
            JValue.obj [("name", JValue.str "Color")],
            JValue.obj []]),
         ("product_attributes", JValue.arr
           [JValue.obj [("name", JValue.str "Material"),
                        ("value", JValue.str "Wood")]])]).length
      = (jarr
        [("id", JValue.str "p1"),
         ("variant_option_sets", JValue.arr
           [JValue.obj [("name", JValue.str "Size")],
            JValue.obj [("name", JValue.str "Color")],
            JValue.obj []]),
         ("product_attributes", JValue.arr
           [JValue.obj [("name", JValue.str "Material"),
                        ("value", JValue.str "Wood")]])]
        "variant_option_sets").length ∧
    (∀ i, (hi : i < (flatten_product_variant_option_sets
        [("id", JValue.str "p1"),
         ("variant_option_sets", JValue.arr
           [JValue.obj [("name", JValue.str "Size")],
            JValue.obj [("name", JValue.str "Color")],
            JValue.obj []]),
         ("product_attributes", JValue.arr
           [JValue.obj [("name", JValue.str "Material"),
                        ("value", JValue.str "Wood")]])]).length) →
      List.lookup "id" (flatten_product_variant_option_sets
        [("id", JValue.str "p1"),
         ("variant_option_sets", JValue.arr
           [JValue.obj [("name", JValue.str "Size")],
            JValue.obj [("name", JValue.str "Color")],
            JValue.obj []]),
         ("product_attributes", JValue.arr
           [JValue.obj [("name", JValue.str "Material"),
                        ("value", JValue.str "Wood")]])])[i]
        = some (JValue.str
            (pyStr (jget
              [("id", JValue.str "p1"),
               ("variant_option_sets", JValue.arr
                 [JValue.obj [("name", JValue.str "Size")],
                  JValue.obj [("name", JValue.str "Color")],
                  JValue.obj []]),
               ("product_attributes", JValue.arr
                 [JValue.obj [("name", JValue.str "Material"),
                              ("value", JValue.str "Wood")]])] "id")
              ++ "_option_" ++ toString i)) ∧
      List.lookup "product_id" (flatten_product_variant_option_sets
        [("id", JValue.str "p1"),
         ("variant_option_sets", JValue.arr
           [JValue.obj [("name", JValue.str "Size")],
            JValue.obj [("name", JValue.str "Color")],
            JValue.obj []]),
         ("product_attributes", JValue.arr
           [JValue.obj [("name", JValue.str "Material"),
                        ("value", JValue.str "Wood")]])])[i]
        = some (jget
            [("id", JValue.str "p1"),
             ("variant_option_sets", JValue.arr
               [JValue.obj [("name", JValue.str "Size")],
                JValue.obj [("name", JValue.str "Color")],
                JValue.obj []]),
             ("product_attributes", JValue.arr
               [JValue.obj [("name", JValue.str "Material"),
                            ("value", JValue.str "Wood")]])] "id")) ∧
    (flatten_product_attributes
        [("id", JValue.str "p1"),
         ("variant_option_sets", JValue.arr
           [JValue.obj [("name", JValue.str "Size")],
            JValue.obj [("name", JValue.str "Color")],
            JValue.obj []]),
         ("product_attributes", JValue.arr
           [JValue.obj [("name", JValue.str "Material"),
                        ("value", JValue.str "Wood")]])]).length
      = (jarr
        [("id", JValue.str "p1"),
         ("variant_option_sets", JValue.arr
           [JValue.obj [("name", JValue.str "Size")],
            JValue.obj [("name", JValue.str "Color")],
            JValue.obj []]),
         ("product_attributes", JValue.arr
           [JValue.obj [("name", JValue.str "Material"),
                        ("value", JValue.str "Wood")]])]
        "product_attributes").length ∧
    (∀ i, (hi : i < (flatten_product_attributes
        [("id", JValue.str "p1"),
         ("variant_option_sets", JValue.arr
           [JValue.obj [("name", JValue.str "Size")],
            JValue.obj [("name", JValue.str "Color")],
            JValue.obj []]),
         ("product_attributes", JValue.arr
           [JValue.obj [("name", JValue.str "Material"),
                        ("value", JValue.str "Wood")]])]).length) →
      List.lookup "id" (flatten_product_attributes
        [("id", JValue.str "p1"),
         ("variant_option_sets", JValue.arr
           [JValue.obj [("name", JValue.str "Size")],
            JValue.obj [("name", JValue.str "Color")],
            JValue.obj []]),
         ("product_attributes", JValue.arr
           [JValue.obj [("name", JValue.str "Material"),
                        ("value", JValue.str "Wood")]])])[i]
        = some (JValue.str
            (pyStr (jget
              [("id", JValue.str "p1"),
               ("variant_option_sets", JValue.arr
                 [JValue.obj [("name", JValue.str "Size")],
                  JValue.obj [("name", JValue.str "Color")],
                  JValue.obj []]),
               ("product_attributes", JValue.arr
                 [JValue.obj [("name", JValue.str "Material"),
                              ("value", JValue.str "Wood")]])] "id")
              ++ "_attr_" ++ toString i)) ∧
      List.lookup "product_id" (flatten_product_attributes
        [("id", JValue.str "p1"),
         ("variant_option_sets", JValue.arr
           [JValue.obj [("name", JValue.str "Size")],
            JValue.obj [("name", JValue.str "Color")],
            JValue.obj []]),
         ("product_attributes", JValue.arr
           [JValue.obj [("name", JValue.str "Material"),
                        ("value", JValue.str "Wood")]])])[i]
        = some (jget
            [("id", JValue.str "p1"),
             ("variant_option_sets", JValue.arr
               [JValue.obj [("name", JValue.str "Size")],
                JValue.obj [("name", JValue.str "Color")],
                JValue.obj []]),
             ("product_attributes", JValue.arr
               [JValue.obj [("name", JValue.str "Material"),
                            ("value", JValue.str "Wood")]])] "id")) ∧
    List.lookup "variant_option_sets" (faire_products_transformer
        [("id", JValue.str "p1"),
         ("variant_option_sets", JValue.arr
           [JValue.obj [("name", JValue.str "Size")],
            JValue.obj [("name", JValue.str "Color")],
            JValue.obj []]),
         ("product_attributes", JValue.arr
           [JValue.obj [("name", JValue.str "Material"),
                        ("value", JValue.str "Wood")]])]) = none ∧
    List.lookup "product_attributes" (faire_products_transformer
        [("id", JValue.str "p1"),
         ("variant_option_sets", JValue.arr
           [JValue.obj [("name", JValue.str "Size")],
            JValue.obj [("name", JValue.str "Color")],
            JValue.obj []]),
         ("product_attributes", JValue.arr
           [JValue.obj [("name", JValue.str "Material"),
                        ("value", JValue.str "Wood")]])]) = none) :=
  faire_synthetic_ids
    [("id", JValue.str "p1"),
     ("variant_option_sets", JValue.arr
       [JValue.obj [("name", JValue.str "Size")],
        JValue.obj [("name", JValue.str "Color")],
        JValue.obj []]),
     ("product_attributes", JValue.arr
       [JValue.obj [("name", JValue.str "Material"),
                    ("value", JValue.str "Wood")]])]

end Faire
